import Mathlib

/-!
Shallow embedding of the Trade-Operations gateway (src/trade.py, src/main.py).

Time values (Python time.time floats) are modelled as exact integers (the spec scenarios use whole seconds).
Python dict values parsed from JSON are modelled by the inductive JVal.
-/

namespace TradeOps

/-- Configuration constant RATE_LIMIT_PER_MINUTE (trade.py line 15). -/
def RATE_LIMIT_PER_MINUTE : Nat := 5

/-- Configuration constant RATE_LIMIT_INTERVAL (trade.py line 16), in seconds. -/
def RATE_LIMIT_INTERVAL : ℤ := 60

/-- The global RATE_LIMITER dict (trade.py line 24): user id to list of
admission timestamps; a missing key behaves as the empty list
(the code reads it with RATE_LIMITER.get(user_id, [])). -/
abbrev LimiterMap := String → List ℤ

/-- The initial, empty RATE_LIMITER. -/
def emptyLimiter : LimiterMap := fun _ => []

/-- The pruning comprehension of trade.py lines 62-64: keep the entries t
of the stored window with t greater than current_time - RATE_LIMIT_INTERVAL. -/
def pruned (w : List ℤ) (now : ℤ) : List ℤ :=
  w.filter (fun t => decide (now - RATE_LIMIT_INTERVAL < t))

/-- rate_limit_dependency (trade.py lines 60-67), with the ambient dict and
current time made explicit.  The code first stores the pruned window, then
raises RateLimitExceeded if its length reaches the limit, and otherwise
appends current_time.  Returns the new dict and the admission decision
(false = RateLimitExceeded raised). -/
def rate_limit_dependency (m : LimiterMap) (user_id : String) (now : ℤ) :
    LimiterMap × Bool :=
  if RATE_LIMIT_PER_MINUTE ≤ (pruned (m user_id) now).length then
    (fun u => if u = user_id then pruned (m user_id) now else m u, false)
  else
    (fun u => if u = user_id then pruned (m user_id) now ++ [now] else m u, true)

/-- A sequence of rate-limiter calls (identity, time), returning the final
dict and the list of admission decisions in order. -/
def runCalls (m : LimiterMap) : List (String × ℤ) → LimiterMap × List Bool
  | [] => (m, [])
  | (u, t) :: rest =>
      let step := rate_limit_dependency m u t
      let tail := runCalls step.1 rest
      (tail.1, step.2 :: tail.2)

/-! ## JSON values and Python dict access semantics

The provider payload (response.json()) is an arbitrary Python object built
from dicts, lists, strings, numbers and None.  Objects are association
lists in insertion order; numbers are modelled as integers (no claim
involves fractional payload numbers). -/

inductive JVal where
  | null : JVal
  | num (n : ℤ) : JVal
  | str (s : String) : JVal
  | arr (items : List JVal) : JVal
  | obj (fields : List (String × JVal)) : JVal

/-- Python x.get(key, default): only dicts have .get; on any other value
the attribute access raises AttributeError (caught later by the blanket
except Exception handler). -/
def jgetD (v : JVal) (key : String) (dflt : JVal) : Except String JVal :=
  match v with
  | .obj fields =>
      match fields.lookup key with
      | some x => .ok x
      | none => .ok dflt
  | _ => .error "AttributeError: object has no attribute get"

/-- Python x[0]: first element of a list (IndexError when empty), first
character of a string (IndexError when empty), KeyError on a dict without
an integer key, TypeError otherwise. -/
def jindex0 (v : JVal) : Except String JVal :=
  match v with
  | .arr (x :: _) => .ok x
  | .arr [] => .error "IndexError: list index out of range"
  | .str s =>
      match s.data with
      | c :: _ => .ok (.str (String.mk [c]))
      | [] => .error "IndexError: string index out of range"
  | .obj _ => .error "KeyError: 0"
  | _ => .error "TypeError: object is not subscriptable"

/-- Python truthiness of a JSON-shaped value: None, 0, empty string, empty
list and empty dict are falsy; everything else is truthy. -/
def jtruthy : JVal → Bool
  | .null => false
  | .num n => decide (n ≠ 0)
  | .str s => !s.isEmpty
  | .arr items => !items.isEmpty
  | .obj fields => !fields.isEmpty

/-- Python iteration (for x in v): a list yields its elements, a string its
characters, a dict its keys; anything else raises TypeError. -/
def jiterate : JVal → Except String (List JVal)
  | .arr items => .ok items
  | .str s => .ok (s.data.map (fun c => .str (String.mk [c])))
  | .obj fields => .ok (fields.map (fun kv => .str kv.1))
  | _ => .error "TypeError: object is not iterable"

/-! ## AIService (trade.py lines 70-126) -/

/-- Outcome of one transport attempt inside _make_api_call (trade.py lines
79-83): the POST plus raise_for_status plus json() either returns a decoded
body, raises httpx.HTTPStatusError carrying the response status code, or
raises some other exception (httpx.RequestError covering network errors and
the 60s per-attempt timeout, or a JSON decode error). -/
inductive AttemptResult where
  | success (body : JVal) : AttemptResult
  | httpStatusError (code : Nat) : AttemptResult
  | otherError (reason : String) : AttemptResult

/-- Final outcome of the tenacity-wrapped _make_api_call.  Because the
decorator (trade.py line 78) passes reraise=True, exhaustion reraises the
last attempt exception; tenacity.RetryError is listed as a constructor to
model the except RetryError handler at trade.py line 113, and the theorems
show it is unreachable. -/
inductive CallResult where
  | ok (body : JVal) : CallResult
  | raisedStatus (code : Nat) : CallResult
  | raisedOther (reason : String) : CallResult
  | retryError : CallResult

/-- stop_after_attempt argument at trade.py line 78. -/
def STOP_AFTER_ATTEMPT : Nat := 5

/-- tenacity wait_exponential(min=2, max=30) with the default multiplier 1
and exp_base 2: the delay taken after failed attempt number n (1-based) is
2 ^ n clamped into [2, 30]. -/
def wait_exponential (minD maxD : ℤ) (attempt_number : Nat) : ℤ :=
  max (max 0 minD) (min ((2 : ℤ) ^ attempt_number) maxD)

/-- Map the last attempt failure to the reraised exception (reraise=True). -/
def reraise : AttemptResult → CallResult
  | .success b => .ok b
  | .httpStatusError c => .raisedStatus c
  | .otherError r => .raisedOther r

/-- The tenacity retry loop: attempt number n runs attempts n; on success it
returns, on any exception (the decorator has no retry= filter, so tenacity
default behaviour retries every Exception) it sleeps wait_exponential and
retries while attempts remain, and reraises the last exception once
remaining hits zero.  Returns (number of the last attempt made, delays slept
between attempts, final outcome). -/
def runRetryFrom (attempts : Nat → AttemptResult) (n : Nat) :
    Nat → Nat × List ℤ × CallResult
  | 0 =>
      match attempts n with
      | .success b => (n, [], .ok b)
      | f => (n, [], reraise f)
  | remaining + 1 =>
      match attempts n with
      | .success b => (n, [], .ok b)
      | _ =>
          let rest := runRetryFrom attempts (n + 1) remaining
          (rest.1, wait_exponential 2 30 n :: rest.2.1, rest.2.2)

/-- _make_api_call under the retry decorator (trade.py lines 78-83), the
per-attempt transport outcomes supplied as an oracle indexed by attempt
number (1-based).  First component: total attempts made; second: backoff
delays; third: final result. -/
def make_api_call (attempts : Nat → AttemptResult) : Nat × List ℤ × CallResult :=
  runRetryFrom attempts 1 (STOP_AFTER_ATTEMPT - 1)

/-- The placeholder text used when the generated-text field is absent
(trade.py line 103): the f-string No data generated for ... . -/
def placeholderText (sector : String) : String :=
  "No data generated for " ++ sector ++ "."

/-- The source-collection loop of generate_analysis (trade.py lines
108-111): for each attribution, web = attr.get(web, dict()); the pair is
appended only when web.get(uri) and web.get(title) are both truthy
(the and short-circuits, so title is only read when uri is truthy).
Values are kept as JVal, exactly as Python stores them. -/
def collectSources : List JVal → Except String (List (JVal × JVal))
  | [] => .ok []
  | attr :: rest => do
      let web ← jgetD attr "web" (.obj [])
      let uri ← jgetD web "uri" .null
      if jtruthy uri then
        let title ← jgetD web "title" .null
        if jtruthy title then
          let tail ← collectSources rest
          return (uri, title) :: tail
        else
          collectSources rest
      else
        collectSources rest

/-- The response-parsing block of generate_analysis (trade.py lines
101-112), applied to the decoded body of a successful transport call.
Mirrors the Python expression chain, including the defaults of each .get
and the places where an exception can still escape (indexing an empty
list, .get on a non-dict, iterating a non-iterable); such an exception is
returned as .error and caught by the blanket except Exception handler. -/
def parse_success (sector : String) (result : JVal) :
    Except String (JVal × List (JVal × JVal)) := do
  let candidates ← jgetD result "candidates" (.arr [.obj []])
  let candidate ← jindex0 candidates
  let content ← jgetD candidate "content" (.obj [])
  let parts ← jgetD content "parts" (.arr [.obj []])
  let part0 ← jindex0 parts
  let text ← jgetD part0 "text" (.str (placeholderText sector))
  let grounding_metadata ← jgetD candidate "groundingMetadata" .null
  if jtruthy grounding_metadata then
    let attributions ← jgetD grounding_metadata "groundingAttributions" .null
    if jtruthy attributions then
      let items ← jiterate attributions
      let sources ← collectSources items
      return (text, sources)
    else
      return (text, [])
  else
    return (text, [])

/-- generate_analysis (trade.py lines 85-121).  The success value is the
returned dict (markdown_report, grounding_sources); a failure is the
HTTPException raised by one of the three except handlers, as
(status_code, detail).  With reraise=True the RetryError handler (503,
AI service failed after retries) is dead: exhaustion reraises the last
attempt exception, which lands in the HTTPStatusError handler (500,
External API error) or the blanket Exception handler (500, Unexpected
error). -/
def generate_analysis (attempts : Nat → AttemptResult) (sector : String) :
    Except (Nat × String) (JVal × List (JVal × JVal)) :=
  match (make_api_call attempts).2.2 with
  | .ok result =>
      match parse_success sector result with
      | .ok out => .ok out
      | .error msg => .error (500, "Unexpected error: " ++ msg)
  | .retryError => .error (503, "AI service failed after retries.")
  | .raisedStatus code => .error (500, "External API error: " ++ toString code)
  | .raisedOther reason => .error (500, "Unexpected error: " ++ reason)

/-! ## Sessions and tokens (trade.py lines 21-23, 54-58, 140-144) -/

/-- One SESSION_KEYS entry: the dict with user_id and created_at. -/
structure SessionData where
  user_id : String
  created_at : ℤ

/-- Python dict insertion d[k] = v on an insertion-ordered association
list: an existing key keeps its position and gets the new value, a new key
is appended at the end. -/
def dictInsert (l : List (String × SessionData)) (k : String) (v : SessionData) :
    List (String × SessionData) :=
  match l with
  | [] => [(k, v)]
  | (k1, v1) :: rest =>
      if k1 = k then (k, v) :: rest else (k1, v1) :: dictInsert rest k v

/-- The SESSION_KEYS dict (trade.py line 21). -/
abbrev SessionKeys := List (String × SessionData)

/-- get_current_user_id (trade.py lines 54-58): look the presented key up
in SESSION_KEYS; a missing key (None is falsy) raises InvalidAPIKey (401).
Every stored entry carries a user_id, so the user_id-membership test never
fails on stored data. -/
def get_current_user_id (sessions : SessionKeys) (api_key : String) :
    Except (Nat × String) String :=
  match sessions.lookup api_key with
  | none => .error (401, "Invalid or expired API key. Use the /auth endpoint to get a key.")
  | some sd => .ok sd.user_id

/-- The /auth endpoint get_api_key (trade.py lines 140-144), the random
draw of secrets.token_hex(32) supplied as the new_key argument: stores
user_id = new_key, created_at = now, and returns the key. -/
def get_api_key (sessions : SessionKeys) (new_key : String) (now : ℤ) :
    SessionKeys × String :=
  (dictInsert sessions new_key ⟨new_key, now⟩, new_key)

/-- N sequential /auth calls, the random draws and call times given as a
list; returns the final SESSION_KEYS and the returned keys in order. -/
def issueTokens (sessions : SessionKeys) : List (String × ℤ) → SessionKeys × List String
  | [] => (sessions, [])
  | (k, t) :: rest =>
      let step := get_api_key sessions k t
      let tail := issueTokens step.1 rest
      (tail.1, step.2 :: tail.2)

/-! ## Sector validation (trade.py line 152, main.py line 28) -/

/-- The characters matched by the regex class backslash-s of Python re on
ASCII input: space, tab, newline, carriage return, vertical tab, form
feed.  (Python also matches some further Unicode whitespace; no claim
involves those code points.) -/
def pythonSpace (c : Char) : Bool :=
  c = ' ' || c = '\t' || c = '\n' || c = '\r' || c = '\x0b' || c = '\x0c'

/-- Membership in the character class of the trade.py regex
[A-Za-z0-9&\s] (trade.py line 152): letters, digits, ampersand,
whitespace.  No hyphen. -/
def tradeChar (c : Char) : Bool :=
  ('A' ≤ c && c ≤ 'Z') || ('a' ≤ c && c ≤ 'z') || ('0' ≤ c && c ≤ '9')
    || c = '&' || pythonSpace c

/-- Membership in the character class of the main.py regex
[A-Za-z0-9\s&-] (main.py line 28): letters, digits, whitespace, ampersand,
hyphen. -/
def mainChar (c : Char) : Bool :=
  ('A' ≤ c && c ≤ 'Z') || ('a' ≤ c && c ≤ 'z') || ('0' ≤ c && c ≤ '9')
    || pythonSpace c || c = '&' || c = '-'

/-- The sector test of trade.py analyze_sector (line 152):
2 <= len(sector) <= 50 and re.match of anchored [A-Za-z0-9&\s]+ against
the whole string.  (The dollar-before-final-newline subtlety of Python re
is absorbed by the class containing the newline itself.) -/
def validate_sector_trade (sector : String) : Bool :=
  2 ≤ sector.length && sector.length ≤ 50 && sector.data.all tradeChar

/-- The SectorRequest pydantic field constraints of main.py (line 28):
min_length 2, max_length 50, regex anchored [A-Za-z0-9\s&-]+. -/
def validate_sector_main (sector : String) : Bool :=
  2 ≤ sector.length && sector.length ≤ 50 && sector.data.all mainChar

/-! ## The /analyze endpoint (trade.py lines 146-158) -/

/-- The success response model AnalysisReport (trade.py lines 27-30). -/
structure AnalysisReport where
  sector : String
  markdown_report : JVal
  grounding_sources : List (JVal × JVal)

/-- The detail string of RateLimitExceeded (trade.py lines 39-44) with the
configured constants substituted. -/
def rateLimitDetail : String :=
  "Rate limit exceeded. Max 5 requests per 60s."

/-- The detail string of the invalid-sector HTTPException (trade.py lines
153-156), transcribed with a plain hyphen for the dash of the source. -/
def invalidSectorDetail : String :=
  "Invalid sector name. Use 2-50 characters (letters, numbers, spaces, & allowed)."

/-- The shared application state mutated by the endpoints. -/
structure AppState where
  sessions : SessionKeys
  limiter : LimiterMap

/-- One call of POST /analyze (trade.py lines 146-158).  FastAPI resolves
the route dependencies before the endpoint body runs: first
get_current_user_id (from rate_limit_dependency its Depends), then the
rest of rate_limit_dependency; only then the body, which checks
ai_service (never None here: AIService(GEMINI_API_KEY) is built once from
a non-empty key at line 124), validates the sector, and calls
generate_analysis on sector.strip().  The response sets sector to the
original, unstripped input. -/
def analyze_endpoint (st : AppState) (api_key : String) (now : ℤ) (sector : String)
    (attempts : Nat → AttemptResult) :
    AppState × Except (Nat × String) AnalysisReport :=
  match get_current_user_id st.sessions api_key with
  | .error e => (st, .error e)
  | .ok uid =>
      let rl := rate_limit_dependency st.limiter uid now
      let st1 : AppState := { st with limiter := rl.1 }
      if rl.2 = false then
        (st1, .error (429, rateLimitDetail))
      else if validate_sector_trade sector = false then
        (st1, .error (400, invalidSectorDetail))
      else
        match generate_analysis attempts sector.trim with
        | .error e => (st1, .error e)
        | .ok out => (st1, .ok ⟨sector, out.1, out.2⟩)

/-! ## Rate-limiter lemmas -/

/-- The two branches of rate_limit_dependency, as an equation. -/
theorem rld_cases (m : LimiterMap) (u : String) (now : ℤ) :
    rate_limit_dependency m u now
      = if RATE_LIMIT_PER_MINUTE ≤ (pruned (m u) now).length then
          (fun v => if v = u then pruned (m u) now else m v, false)
        else
          (fun v => if v = u then pruned (m u) now ++ [now] else m v, true) :=
  rfl

/-- A rate-limiter call touches only the window of the calling identity. -/
theorem rld_frame (m : LimiterMap) (u : String) (now : ℤ) (v : String)
    (hv : v ≠ u) : (rate_limit_dependency m u now).1 v = m v := by
  unfold rate_limit_dependency
  by_cases hc : RATE_LIMIT_PER_MINUTE ≤ (pruned (m u) now).length <;> simp [hc, hv]

/-- On rejection the stored window is exactly the pruned prior window:
nothing is appended. -/
theorem rld_window_of_rejected (m : LimiterMap) (u : String) (now : ℤ)
    (h : (rate_limit_dependency m u now).2 = false) :
    (rate_limit_dependency m u now).1 u = pruned (m u) now := by
  unfold rate_limit_dependency at h ⊢
  by_cases hc : RATE_LIMIT_PER_MINUTE ≤ (pruned (m u) now).length <;>
    simp [hc] at h ⊢

/-- On admission the stored window is the pruned prior window with now
appended. -/
theorem rld_window_of_admitted (m : LimiterMap) (u : String) (now : ℤ)
    (h : (rate_limit_dependency m u now).2 = true) :
    (rate_limit_dependency m u now).1 u = pruned (m u) now ++ [now] := by
  unfold rate_limit_dependency at h ⊢
  by_cases hc : RATE_LIMIT_PER_MINUTE ≤ (pruned (m u) now).length <;>
    simp [hc] at h ⊢

/-- Pruning at a later time subsumes pruning at an earlier time. -/
theorem pruned_pruned (w : List ℤ) (now fut : ℤ) (h : now ≤ fut) :
    pruned (pruned w now) fut = pruned w fut := by
  unfold pruned
  rw [List.filter_filter]
  refine List.filter_congr ?_
  intro t _
  by_cases hf : fut - RATE_LIMIT_INTERVAL < t
  · have hn : now - RATE_LIMIT_INTERVAL < t := by
      have := sub_le_sub_right h RATE_LIMIT_INTERVAL
      linarith
    simp [hf, hn]
  · simp [hf]

/-- Pruning never lengthens a window. -/
theorem pruned_length_le (w : List ℤ) (now : ℤ) :
    (pruned w now).length ≤ w.length :=
  List.length_filter_le _ _

/-- After any rate-limiter call, the window of the calling identity holds
only timestamps strictly inside the trailing interval ending at now. -/
theorem rld_window_fresh (m : LimiterMap) (u : String) (now : ℤ) :
    ∀ t ∈ (rate_limit_dependency m u now).1 u,
      now - RATE_LIMIT_INTERVAL < t := by
  intro t ht
  rw [rld_cases] at ht
  have h60 : (0 : ℤ) < RATE_LIMIT_INTERVAL := by decide
  by_cases hc : RATE_LIMIT_PER_MINUTE ≤ (pruned (m u) now).length
  · rw [if_pos hc] at ht
    simp [pruned, List.mem_filter] at ht
    exact ht.2
  · rw [if_neg hc] at ht
    simp [pruned, List.mem_filter, List.mem_append] at ht
    rcases ht with h1 | h2
    · exact h1.2
    · subst h2
      linarith

/-- A call on a map that agrees at the calling identity gives the same
decision and the same stored window for that identity. -/
theorem rld_congr_window (m1 m2 : LimiterMap) (u : String) (now : ℤ)
    (h : m1 u = m2 u) :
    (rate_limit_dependency m1 u now).2 = (rate_limit_dependency m2 u now).2
    ∧ (rate_limit_dependency m1 u now).1 u
        = (rate_limit_dependency m2 u now).1 u := by
  unfold rate_limit_dependency
  rw [h]
  by_cases hc : RATE_LIMIT_PER_MINUTE ≤ (pruned (m2 u) now).length <;>
    simp [hc]

/-- A window bound below the limit survives one call, for every identity. -/
theorem rld_length_le (m : LimiterMap) (u : String) (now : ℤ)
    (hm : ∀ v, (m v).length ≤ RATE_LIMIT_PER_MINUTE) (v : String) :
    ((rate_limit_dependency m u now).1 v).length ≤ RATE_LIMIT_PER_MINUTE := by
  by_cases hv : v = u
  · subst hv
    rw [rld_cases]
    by_cases hc : RATE_LIMIT_PER_MINUTE ≤ (pruned (m v) now).length
    · rw [if_pos hc]
      show (if v = v then pruned (m v) now else m v).length
          ≤ RATE_LIMIT_PER_MINUTE
      rw [if_pos rfl]
      exact le_trans (pruned_length_le _ _) (hm v)
    · rw [if_neg hc]
      show (if v = v then pruned (m v) now ++ [now] else m v).length
          ≤ RATE_LIMIT_PER_MINUTE
      rw [if_pos rfl, List.length_append]
      push_neg at hc
      simp only [List.length_singleton]
      omega
  · rw [rld_frame m u now v hv]
    exact hm v

/-- Identities never touched by a trace of calls keep their window. -/
theorem runCalls_frame (m : LimiterMap) (calls : List (String × ℤ))
    (b : String) (hb : ∀ c ∈ calls, c.1 ≠ b) :
    (runCalls m calls).1 b = m b := by
  induction calls generalizing m with
  | nil => rfl
  | cons c rest ih =>
      obtain ⟨u, t⟩ := c
      have h1 : u ≠ b := hb (u, t) (List.mem_cons_self _ _)
      show (runCalls (rate_limit_dependency m u t).1 rest).1 b = m b
      rw [ih _ (fun d hd => hb d (List.mem_cons_of_mem _ hd))]
      exact rld_frame m u t b (Ne.symm h1)

/-- The length bound propagates along any trace of calls. -/
theorem runCalls_length_le (calls : List (String × ℤ)) (m : LimiterMap)
    (hm : ∀ v, (m v).length ≤ RATE_LIMIT_PER_MINUTE) :
    ∀ v, ((runCalls m calls).1 v).length ≤ RATE_LIMIT_PER_MINUTE := by
  induction calls generalizing m with
  | nil => exact hm
  | cons c rest ih =>
      obtain ⟨u, t⟩ := c
      exact ih _ (rld_length_le m u t hm)

/-! ## Claim theorems: rate limiter -/

/-- C6: with maxRequests 5 and windowSeconds 60, one identity is admitted
at times 0, 1, 2, 3, 4, a sixth request at time 5 is rejected, and a
request at time 61 is admitted again. -/
theorem C6_rate_limiter_boundary :
    (runCalls emptyLimiter
      [("u", 0), ("u", 1), ("u", 2), ("u", 3), ("u", 4), ("u", 5), ("u", 61)]).2
      = [true, true, true, true, true, false, true] := by decide

/-- C7: a rejected admission attempt occupies no window slot: the stored
window after the rejection is just the pruned prior window (nothing is
appended), and any later call behaves exactly as if the rejected attempt
had never happened, so a retry succeeds as soon as one admitted timestamp
ages out, without two slots having to free. -/
theorem C7_rejection_consumes_no_slot (m : LimiterMap) (u : String)
    (now fut : ℤ) (hrej : (rate_limit_dependency m u now).2 = false)
    (hle : now ≤ fut) :
    (rate_limit_dependency m u now).1 u = pruned (m u) now
    ∧ rate_limit_dependency ((rate_limit_dependency m u now).1) u fut
        = rate_limit_dependency m u fut := by
  have hwin := rld_window_of_rejected m u now hrej
  refine ⟨hwin, ?_⟩
  set m1 : LimiterMap := (rate_limit_dependency m u now).1 with hm1
  have hwin1 : m1 u = pruned (m u) now := hwin
  have hframe : ∀ v, v ≠ u → m1 v = m v := fun v hv => rld_frame m u now v hv
  have hkey : pruned (m1 u) fut = pruned (m u) fut := by
    rw [hwin1]
    exact pruned_pruned _ _ _ hle
  rw [rld_cases m1 u fut, rld_cases m u fut, hkey]
  by_cases hc : RATE_LIMIT_PER_MINUTE ≤ (pruned (m u) fut).length
  · rw [if_pos hc, if_pos hc]
    simp only [Prod.mk.injEq]
    refine ⟨funext fun v => ?_, trivial⟩
    by_cases hv : v = u
    · rw [if_pos hv, if_pos hv]
    · rw [if_neg hv, if_neg hv]
      exact hframe v hv
  · rw [if_neg hc, if_neg hc]
    simp only [Prod.mk.injEq]
    refine ⟨funext fun v => ?_, trivial⟩
    by_cases hv : v = u
    · rw [if_pos hv, if_pos hv]
    · rw [if_neg hv, if_neg hv]
      exact hframe v hv

/-- C7 witness: the window [0, 1, 2, 3, 4] rejects at time 5 without
recording anything, behaves at time 60 exactly as if the rejection had not
happened, and at time 60 the retry is admitted (only the timestamp 0 has
aged out by then). -/
theorem C7_rejection_consumes_no_slot_witness :
    (rate_limit_dependency (fun _ => [0, 1, 2, 3, 4]) "u" 5).2 = false
    ∧ (5 : ℤ) ≤ 60
    ∧ (rate_limit_dependency (fun _ => [0, 1, 2, 3, 4]) "u" 60).2 = true
    ∧ ((rate_limit_dependency (fun _ => [0, 1, 2, 3, 4]) "u" 5).1 "u"
          = pruned ((fun (_ : String) => [(0 : ℤ), 1, 2, 3, 4]) "u") 5
       ∧ rate_limit_dependency
            ((rate_limit_dependency (fun _ => [0, 1, 2, 3, 4]) "u" 5).1) "u" 60
          = rate_limit_dependency (fun _ => [0, 1, 2, 3, 4]) "u" 60) :=
  ⟨by decide, by decide, by decide,
    C7_rejection_consumes_no_slot (fun _ => [0, 1, 2, 3, 4]) "u" 5 60
      (by decide) (by decide)⟩

/-- C9: admission decisions are isolated across identities: a trace of
calls none of which is for identity b leaves the window of b unchanged,
and a subsequent call for b gets the same decision and the same stored
window as it would have got before the trace. -/
theorem C9_identity_isolation (m : LimiterMap) (calls : List (String × ℤ))
    (b : String) (tb : ℤ) (hb : ∀ c ∈ calls, c.1 ≠ b) :
    (runCalls m calls).1 b = m b
    ∧ (rate_limit_dependency (runCalls m calls).1 b tb).2
        = (rate_limit_dependency m b tb).2
    ∧ (rate_limit_dependency (runCalls m calls).1 b tb).1 b
        = (rate_limit_dependency m b tb).1 b := by
  have hw := runCalls_frame m calls b hb
  exact ⟨hw, (rld_congr_window _ m b tb hw).1, (rld_congr_window _ m b tb hw).2⟩

/-- C9 witness: identity a exhausts its quota with six calls; the decision
and stored window of identity b at time 3 are unaffected. -/
theorem C9_identity_isolation_witness :
    (∀ c ∈ [("a", (0 : ℤ)), ("a", 1), ("a", 2), ("a", 3), ("a", 4), ("a", 5)],
        c.1 ≠ "b")
    ∧ ((runCalls emptyLimiter
          [("a", 0), ("a", 1), ("a", 2), ("a", 3), ("a", 4), ("a", 5)]).1 "b"
        = emptyLimiter "b"
      ∧ (rate_limit_dependency
            (runCalls emptyLimiter
              [("a", 0), ("a", 1), ("a", 2), ("a", 3), ("a", 4), ("a", 5)]).1
            "b" 3).2
          = (rate_limit_dependency emptyLimiter "b" 3).2
      ∧ (rate_limit_dependency
            (runCalls emptyLimiter
              [("a", 0), ("a", 1), ("a", 2), ("a", 3), ("a", 4), ("a", 5)]).1
            "b" 3).1 "b"
          = (rate_limit_dependency emptyLimiter "b" 3).1 "b") :=
  ⟨by decide,
    C9_identity_isolation emptyLimiter
      [("a", 0), ("a", 1), ("a", 2), ("a", 3), ("a", 4), ("a", 5)]
      "b" 3 (by decide)⟩

/-- C10: after a rate-limiter call at time now on any state reachable from
the empty map, every stored window holds at most maxRequests timestamps,
and the window of the identity just checked holds only timestamps t with
now - windowSeconds less than t. -/
theorem C10_window_invariant (calls : List (String × ℤ)) (i : String)
    (now : ℤ) :
    (∀ u, ((rate_limit_dependency (runCalls emptyLimiter calls).1 i now).1 u).length
        ≤ RATE_LIMIT_PER_MINUTE)
    ∧ ∀ t ∈ (rate_limit_dependency (runCalls emptyLimiter calls).1 i now).1 i,
        now - RATE_LIMIT_INTERVAL < t := by
  constructor
  · intro u
    refine rld_length_le _ i now ?_ u
    exact runCalls_length_le calls emptyLimiter
      (fun v => by simp [emptyLimiter])
  · exact rld_window_fresh _ i now

/-- C10 witness: the invariant instantiated after a short trace. -/
theorem C10_window_invariant_witness :
    (∀ u, ((rate_limit_dependency
        (runCalls emptyLimiter [("a", 0), ("a", 20)]).1 "a" 70).1 u).length
        ≤ RATE_LIMIT_PER_MINUTE)
    ∧ ∀ t ∈ (rate_limit_dependency
        (runCalls emptyLimiter [("a", 0), ("a", 20)]).1 "a" 70).1 "a",
        (70 : ℤ) - RATE_LIMIT_INTERVAL < t :=
  C10_window_invariant [("a", 0), ("a", 20)] "a" 70

/-! ## Session lemmas and the token claim -/

/-- Looking up the key just inserted finds the inserted value. -/
theorem lookup_dictInsert_self (l : List (String × SessionData)) (k : String)
    (v : SessionData) : (dictInsert l k v).lookup k = some v := by
  induction l with
  | nil => simp [dictInsert]
  | cons kv rest ih =>
      obtain ⟨k1, v1⟩ := kv
      by_cases h : k1 = k
      · subst h
        simp [dictInsert]
      · simp only [dictInsert, if_neg h]
        rw [List.lookup_cons]
        have hb : (k == k1) = false := by
          simp [BEq.beq]
          exact fun hk => h hk.symm
        rw [hb]
        exact ih

/-- The /auth endpoint returns exactly the drawn random values. -/
theorem issueTokens_returns (sessions : SessionKeys)
    (draws : List (String × ℤ)) :
    (issueTokens sessions draws).2 = draws.map Prod.fst := by
  induction draws generalizing sessions with
  | nil => rfl
  | cons d rest ih =>
      obtain ⟨k, t⟩ := d
      show (k :: (issueTokens (get_api_key sessions k t).1 rest).2)
          = k :: rest.map Prod.fst
      rw [ih]

/-- Issuing a concatenation of draws is issuing them in two stages. -/
theorem issueTokens_append (sessions : SessionKeys)
    (xs ys : List (String × ℤ)) :
    (issueTokens sessions (xs ++ ys)).1
      = (issueTokens (issueTokens sessions xs).1 ys).1 := by
  induction xs generalizing sessions with
  | nil => rfl
  | cons d rest ih =>
      obtain ⟨k, t⟩ := d
      show (issueTokens (get_api_key sessions k t).1 (rest ++ ys)).1 = _
      rw [ih]
      rfl

/-- C8: N sequential /auth calls return exactly the drawn random values, so
when the draws are pairwise distinct the returned tokens are pairwise
distinct, and every returned token validates immediately after its own
issuance, yielding its bound identity (which equals the token value). -/
theorem C8_token_uniqueness (sessions : SessionKeys)
    (draws : List (String × ℤ)) (hdist : (draws.map Prod.fst).Nodup) :
    (issueTokens sessions draws).2 = draws.map Prod.fst
    ∧ (issueTokens sessions draws).2.Nodup
    ∧ ∀ pre k t post, draws = pre ++ (k, t) :: post →
        get_current_user_id (issueTokens sessions (pre ++ [(k, t)])).1 k
          = .ok k := by
  refine ⟨issueTokens_returns _ _, ?_, ?_⟩
  · rw [issueTokens_returns]
    exact hdist
  · intro pre k t post _
    rw [issueTokens_append]
    show get_current_user_id
        (dictInsert (issueTokens sessions pre).1 k ⟨k, t⟩) k = .ok k
    unfold get_current_user_id
    rw [lookup_dictInsert_self]

/-- C8 witness: three issuances with distinct draws. -/
theorem C8_token_uniqueness_witness :
    (([("t1", (0 : ℤ)), ("t2", 1), ("t3", 2)].map Prod.fst).Nodup)
    ∧ ((issueTokens [] [("t1", (0 : ℤ)), ("t2", 1), ("t3", 2)]).2
        = [("t1", (0 : ℤ)), ("t2", 1), ("t3", 2)].map Prod.fst
      ∧ (issueTokens [] [("t1", (0 : ℤ)), ("t2", 1), ("t3", 2)]).2.Nodup
      ∧ ∀ pre k t post,
          [("t1", (0 : ℤ)), ("t2", 1), ("t3", 2)] = pre ++ (k, t) :: post →
          get_current_user_id (issueTokens [] (pre ++ [(k, t)])).1 k
            = .ok k) :=
  ⟨by decide, C8_token_uniqueness [] _ (by decide)⟩

/-! ## Validation lemmas and the validation-rule claim -/

/-- Away from the hyphen the two character classes agree. -/
theorem tradeChar_eq_mainChar (c : Char) (h : c ≠ '-') :
    tradeChar c = mainChar c := by
  unfold tradeChar mainChar
  have hd : decide (c = '-') = false := by
    simp [h]
  rw [hd]
  simp [Bool.or_comm, Bool.or_assoc, Bool.or_left_comm]

/-- On hyphen-free character lists the two class tests agree. -/
theorem all_tradeChar_eq (l : List Char) (h : '-' ∉ l) :
    l.all tradeChar = l.all mainChar := by
  induction l with
  | nil => rfl
  | cons c cs ih =>
      have h1 : c ≠ '-' := by
        intro hc
        subst hc
        exact h (List.mem_cons_self _ _)
      have h2 : '-' ∉ cs := fun hm => h (List.mem_cons_of_mem _ hm)
      rw [List.all_cons, List.all_cons, tradeChar_eq_mainChar c h1, ih h2]

/-- C4 amended: the two entry surfaces agree exactly on hyphen-free
strings; any string containing a hyphen fails the trade.py sector test
(and so draws InvalidInput there), while main.py accepts hyphens in its
class. -/
theorem C4_hyphen_divergence (s : String) :
    ('-' ∉ s.data → validate_sector_trade s = validate_sector_main s)
    ∧ ('-' ∈ s.data → validate_sector_trade s = false) := by
  constructor
  · intro h
    unfold validate_sector_trade validate_sector_main
    rw [all_tradeChar_eq s.data h]
  · intro h
    unfold validate_sector_trade
    cases hall : s.data.all tradeChar with
    | true =>
        exfalso
        have := List.all_eq_true.mp hall '-' h
        exact absurd this (by decide)
    | false => simp [hall]

/-- C4 witness: the surfaces agree on IT, and X-Y fails the trade.py
test. -/
theorem C4_hyphen_divergence_witness :
    ('-' ∉ "IT".data
      ∧ validate_sector_trade "IT" = validate_sector_main "IT")
    ∧ ('-' ∈ "X-Y".data ∧ validate_sector_trade "X-Y" = false) :=
  ⟨⟨by decide, (C4_hyphen_divergence "IT").1 (by decide)⟩,
   ⟨by decide, (C4_hyphen_divergence "X-Y").2 (by decide)⟩⟩

/-- C4 counterexample: A-B is inside the documented shape (length in
[2,50], letters and hyphen), main.py accepts it, yet the trade.py Analyze
surface rejects it with the InvalidInput error (HTTP 400): the two
surfaces do not enforce the identical rule. -/
theorem C4_counterexample :
    validate_sector_main "A-B" = true
    ∧ validate_sector_trade "A-B" = false
    ∧ (analyze_endpoint ⟨[("k1", ⟨"u1", 0⟩)], emptyLimiter⟩ "k1" 0 "A-B"
        (fun _ => .success (.obj []))).2
      = .error (400, invalidSectorDetail) := by
  refine ⟨by decide, by decide, rfl⟩

/-! ## Endpoint ordering claim -/

/-- Shape of the /analyze call once the token has resolved to an identity:
the rate-limit dependency has already run by the time the sector is
validated. -/
theorem analyze_endpoint_eq (st : AppState) (key : String) (now : ℤ)
    (sector : String) (attempts : Nat → AttemptResult) (uid : String)
    (huid : get_current_user_id st.sessions key = .ok uid) :
    analyze_endpoint st key now sector attempts
      = (if (rate_limit_dependency st.limiter uid now).2 = false then
          ({ st with limiter := (rate_limit_dependency st.limiter uid now).1 },
            .error (429, rateLimitDetail))
        else if validate_sector_trade sector = false then
          ({ st with limiter := (rate_limit_dependency st.limiter uid now).1 },
            .error (400, invalidSectorDetail))
        else
          match generate_analysis attempts sector.trim with
          | .error e =>
              ({ st with limiter := (rate_limit_dependency st.limiter uid now).1 },
                .error e)
          | .ok out =>
              ({ st with limiter := (rate_limit_dependency st.limiter uid now).1 },
                .ok ⟨sector, out.1, out.2⟩)) := by
  unfold analyze_endpoint
  rw [huid]

/-- C3 amended: a malformed sector is rejected with InvalidInput (HTTP
400) only after authentication and rate limiting have run: with a valid
token whose identity is admitted, the admission is charged — now is
appended to the identity window — before the validation failure is
raised; with an invalid token the call fails Unauthenticated instead of
InvalidInput. -/
theorem C3_validation_after_quota (st : AppState) (key uid : String)
    (cd : ℤ) (now : ℤ) (sector : String) (attempts : Nat → AttemptResult)
    (hk : st.sessions.lookup key = some ⟨uid, cd⟩)
    (hv : validate_sector_trade sector = false)
    (ha : (rate_limit_dependency st.limiter uid now).2 = true) :
    (analyze_endpoint st key now sector attempts).2
        = .error (400, invalidSectorDetail)
    ∧ (analyze_endpoint st key now sector attempts).1.limiter uid
        = pruned (st.limiter uid) now ++ [now] := by
  have huid : get_current_user_id st.sessions key = .ok uid := by
    unfold get_current_user_id
    rw [hk]
  have hne : ¬ ((rate_limit_dependency st.limiter uid now).2 = false) := by
    rw [ha]
    exact fun hh => Bool.noConfusion hh
  have hwin := rld_window_of_admitted st.limiter uid now ha
  rw [analyze_endpoint_eq st key now sector attempts uid huid,
    if_neg hne, if_pos hv]
  exact ⟨rfl, hwin⟩

/-- C3 witness: a valid token, a malformed sector (the one-character a)
and an empty window: the call is charged and then rejected with 400. -/
theorem C3_validation_after_quota_witness :
    ((([("k1", ⟨"u1", 0⟩)] : SessionKeys).lookup "k1"
        = some (⟨"u1", 0⟩ : SessionData))
      ∧ validate_sector_trade "a" = false
      ∧ (rate_limit_dependency emptyLimiter "u1" 10).2 = true)
    ∧ ((analyze_endpoint ⟨[("k1", ⟨"u1", 0⟩)], emptyLimiter⟩ "k1" 10 "a"
          (fun _ => .success (.obj []))).2
        = .error (400, invalidSectorDetail)
      ∧ (analyze_endpoint ⟨[("k1", ⟨"u1", 0⟩)], emptyLimiter⟩ "k1" 10 "a"
          (fun _ => .success (.obj []))).1.limiter "u1"
        = pruned (emptyLimiter "u1") 10 ++ [10]) :=
  ⟨⟨rfl, by decide, by decide⟩,
    C3_validation_after_quota ⟨[("k1", ⟨"u1", 0⟩)], emptyLimiter⟩ "k1" "u1"
      0 10 "a" (fun _ => .success (.obj [])) rfl (by decide) (by decide)⟩

/-- C3 counterexample: with a valid token and the malformed sector a, the
call does fail with InvalidInput (HTTP 400), but the identity window is
not left unchanged — the timestamp 10 has been recorded, so quota was
consumed; and with an unknown token the same malformed sector draws
Unauthenticated (HTTP 401), not InvalidInput: validation is not
independent of authentication. -/
theorem C3_counterexample :
    (analyze_endpoint ⟨[("k1", ⟨"u1", 0⟩)], emptyLimiter⟩ "k1" 10 "a"
        (fun _ => .success (.obj []))).2
      = .error (400, invalidSectorDetail)
    ∧ (analyze_endpoint ⟨[("k1", ⟨"u1", 0⟩)], emptyLimiter⟩ "k1" 10 "a"
        (fun _ => .success (.obj []))).1.limiter "u1"
      = [10]
    ∧ (analyze_endpoint ⟨[("k1", ⟨"u1", 0⟩)], emptyLimiter⟩ "bad" 10 "a"
        (fun _ => .success (.obj []))).2
      = .error (401,
          "Invalid or expired API key. Use the /auth endpoint to get a key.") :=
  ⟨rfl, rfl, rfl⟩

/-! ## External-caller claims -/

/-- With reraise=True the retry loop reraises the last attempt exception on
exhaustion and never produces tenacity.RetryError: the except RetryError
handler of generate_analysis (trade.py lines 113-115) is unreachable. -/
theorem runRetryFrom_ne_retryError (attempts : Nat → AttemptResult) :
    ∀ remaining n,
      (runRetryFrom attempts n remaining).2.2 ≠ CallResult.retryError := by
  intro remaining
  induction remaining with
  | zero =>
      intro n
      unfold runRetryFrom
      cases h : attempts n <;> simp only [h, reraise] <;>
        exact fun hh => CallResult.noConfusion hh
  | succ r ih =>
      intro n
      unfold runRetryFrom
      cases h : attempts n <;> simp only [h, reraise]
      · exact fun hh => CallResult.noConfusion hh
      · exact ih (n + 1)
      · exact ih (n + 1)

/-- C2 (code_bug evidence): when every attempt fails with a retryable
failure (here HTTP 503), the caller does make exactly 5 attempts with the
non-decreasing doubling delays 2, 4, 8, 16 (each within [2, 30]), but the
final failure is the reraised HTTPStatusError, surfaced as HTTP 500
External API error — the UpstreamRejected shape — and never the 503
AI service failed after retries of the dead RetryError handler, because
reraise=True makes RetryError unreachable for every attempt oracle. -/
theorem C2_retry_exhaustion_behavior :
    make_api_call (fun _ => .httpStatusError 503)
      = (5, [2, 4, 8, 16], .raisedStatus 503)
    ∧ generate_analysis (fun _ => .httpStatusError 503) "IT"
      = .error (500, "External API error: 503")
    ∧ ∀ attempts, (make_api_call attempts).2.2 ≠ CallResult.retryError :=
  ⟨rfl, rfl, fun attempts => runRetryFrom_ne_retryError attempts _ _⟩

/-- C2 witness: the evaluated components of the exhaustion behaviour at a
concrete oracle. -/
theorem C2_retry_exhaustion_behavior_witness :
    make_api_call (fun _ => .httpStatusError 503)
      = (5, [2, 4, 8, 16], .raisedStatus 503)
    ∧ (make_api_call (fun _ => .httpStatusError 503)).2.2
        ≠ CallResult.retryError :=
  ⟨C2_retry_exhaustion_behavior.1,
    C2_retry_exhaustion_behavior.2.2 (fun _ => .httpStatusError 503)⟩

/-- C1 counterexample: an attempt oracle whose first (and every) response
is a fatal-class failure (HTTP 400, a 4xx other than 429): the caller does
not stop after one attempt — it makes 5. -/
theorem C1_counterexample :
    (400 ≤ 400 ∧ 400 < 500 ∧ (400 : Nat) ≠ 429)
    ∧ (make_api_call (fun _ => .httpStatusError 400)).1 = 5
    ∧ ¬ ((make_api_call (fun _ => .httpStatusError 400)).1 = 1) := by
  refine ⟨by decide, rfl, by decide⟩

/-- C1 amended: the code has no fatal/retryable classification — a
fatal-class (4xx, non-429) response is retried like any other failure;
when every attempt fails that way the caller makes exactly 5 attempts and
the operation fails through the HTTPStatusError handler (HTTP 500
External API error — the UpstreamRejected surface). -/
theorem C1_fatal_is_retried (code : Nat) (sector : String)
    (h4 : 400 ≤ code) (h5 : code < 500) (hrl : code ≠ 429) :
    (make_api_call (fun _ => .httpStatusError code)).1 = 5
    ∧ generate_analysis (fun _ => .httpStatusError code) sector
        = .error (500, "External API error: " ++ toString code) :=
  ⟨rfl, rfl⟩

/-- C1 witness: the amended claim at code 400. -/
theorem C1_fatal_is_retried_witness :
    (400 ≤ 400 ∧ 400 < 500 ∧ (400 : Nat) ≠ 429)
    ∧ ((make_api_call (fun _ => .httpStatusError 400)).1 = 5
      ∧ generate_analysis (fun _ => .httpStatusError 400) "IT"
          = .error (500, "External API error: " ++ toString 400)) :=
  ⟨by decide,
    C1_fatal_is_retried 400 "IT" (by decide) (by decide) (by decide)⟩

/-- A successful transport call feeds the decoded body to the parsing
block; a parse exception lands in the blanket handler. -/
theorem generate_analysis_success (v : JVal) (sector : String) :
    generate_analysis (fun _ => .success v) sector
      = match parse_success sector v with
        | .ok out => .ok out
        | .error msg => .error (500, "Unexpected error: " ++ msg) := rfl

/-- C5 counterexample: a transport-successful response whose candidates
key is present but holds an empty list: indexing [0] raises IndexError,
which the blanket handler converts into an HTTP 500 failure — the call
fails instead of degrading to the placeholder. -/
theorem C5_counterexample :
    generate_analysis
        (fun _ => .success (.obj [("candidates", .arr [])])) "IT"
      = .error (500, "Unexpected error: IndexError: list index out of range") :=
  rfl

/-- C5 amended: degradation holds for absent keys — any dict body without
a candidates key (and, along the default chain, without content, parts,
text or grounding keys) yields the placeholder report naming the sector
and an empty sources list, and a concrete body whose only defect is a
missing text field does the same; but a present-and-empty candidates (or
parts) list instead raises, failing the call with HTTP 500. -/
theorem C5_missing_keys_degrade (sector : String)
    (fields : List (String × JVal))
    (h : fields.lookup "candidates" = none) :
    generate_analysis (fun _ => .success (.obj fields)) sector
      = .ok (.str (placeholderText sector), [])
    ∧ generate_analysis
        (fun _ => .success (.obj [("candidates",
          .arr [.obj [("content", .obj [("parts",
            .arr [.obj [("notText", .null)]])])]])])) sector
      = .ok (.str (placeholderText sector), []) := by
  constructor
  · have hget : jgetD (.obj fields) "candidates" (.arr [.obj []])
        = .ok (.arr [.obj []]) := by
      simp [jgetD, h]
    have hp : parse_success sector (.obj fields)
        = .ok (.str (placeholderText sector), []) := by
      unfold parse_success
      rw [hget]
      rfl
    rw [generate_analysis_success, hp]
  · rfl

/-- C5 witness: the empty dict body. -/
theorem C5_missing_keys_degrade_witness :
    (([] : List (String × JVal)).lookup "candidates" = none)
    ∧ (generate_analysis (fun _ => .success (.obj [])) "IT"
        = .ok (.str (placeholderText "IT"), [])
      ∧ generate_analysis
          (fun _ => .success (.obj [("candidates",
            .arr [.obj [("content", .obj [("parts",
              .arr [.obj [("notText", .null)]])])]])])) "IT"
        = .ok (.str (placeholderText "IT"), [])) :=
  ⟨rfl, C5_missing_keys_degrade "IT" [] rfl⟩

end TradeOps
